import Mathlib

/-!
Verification of the cascading-translation core of project-udaan
(src/translation_services.py, src/cache_manager.py, src/main.py).

Python strings are modelled as lists of characters (`PyStr`), so that every
string operation the source uses (lower, strip, split, slicing, len) is an
executable Lean function that the kernel can evaluate on concrete inputs.
Network-facing provider calls are modelled as an environment of abstract
functions returning `Option`; everything that is pure Python logic in the
source is translated directly.
-/

namespace Udaan

/-- Python `str` modelled as its sequence of characters. -/
abbrev PyStr := List Char

/-- Python `str.lower` restricted to ASCII letters. All language codes and all
phrases appearing in the claims and in the repository data are ASCII or
already lower-case, so this agrees with CPython on every input used here. -/
def pyCharLower (c : Char) : Char :=
  if 'A' ≤ c ∧ c ≤ 'Z' then Char.ofNat (c.toNat + 32) else c

/-- Python `str.lower` on a whole string. -/
def pyLower (s : PyStr) : PyStr := s.map pyCharLower

/-- The characters Python `str.strip` removes by default. -/
def pyIsSpace (c : Char) : Bool :=
  c == ' ' || c == '\t' || c == '\n' || c == '\r' || c == '\x0b' || c == '\x0c'

/-- Python `str.strip`: drop whitespace from both ends. -/
def pyStrip (s : PyStr) : PyStr :=
  ((s.dropWhile pyIsSpace).reverse.dropWhile pyIsSpace).reverse

/-- Locate the first occurrence of the separator `sep` in `l`; return the part
before it and the part after it, as Python `str.split` does when scanning
left to right. -/
def breakOnSep (sep : PyStr) : PyStr → Option (PyStr × PyStr)
  | [] => none
  | c :: cs =>
    if sep.isPrefixOf (c :: cs) then some ([], (c :: cs).drop sep.length)
    else
      match breakOnSep sep cs with
      | none => none
      | some (b, a) => some (c :: b, a)

/-- Worker for `pySplit`, structurally recursive on a fuel argument so the
kernel can evaluate it; `pySplit` supplies fuel `l.length`, which always
suffices because each found separator consumes at least one character. -/
def pySplitFuel (sep : PyStr) : Nat → PyStr → List PyStr
  | 0, l => [l]
  | fuel + 1, l =>
    match breakOnSep sep l with
    | none => [l]
    | some (b, a) => b :: pySplitFuel sep fuel a

/-- Python `str.split(sep)` for a non-empty separator (the source only splits
on the two-character separator consisting of a dot and a space). -/
def pySplit (sep l : PyStr) : List PyStr :=
  if sep.isEmpty then [l] else pySplitFuel sep l.length l

/-- The sentence separator used by `_chunk_text` in
src/translation_services.py: a dot followed by a space. -/
def dotSpace : PyStr := ['.', ' ']

/-- Python slicing loop `for i in range(0, len(chunk), max_length)` in
`_chunk_text` (src/translation_services.py lines 344-347): cut a string into
consecutive pieces of `m` characters. Structurally recursive on fuel; the
caller passes fuel `l.length`, which suffices whenever `0 < m`. With `m = 0`
CPython `range` raises `ValueError`; that case is outside every claim. -/
def hardSplitFuel (m : Nat) : Nat → PyStr → List PyStr
  | _, [] => []
  | 0, l => [l]
  | fuel + 1, l => l.take m :: hardSplitFuel m fuel (l.drop m)

/-- Character-count split used as a last resort by `_chunk_text`. -/
def hardSplit (l : PyStr) (m : Nat) : List PyStr :=
  hardSplitFuel m l.length l

/-- Loop body of the sentence-accumulation loop of `_chunk_text`
(src/translation_services.py lines 325-334), translated statement by
statement. The accumulator is the pair (chunks, current_chunk). Note the
duplicated append in the else branch: the source appends `current_chunk`,
reassigns it to the new sentence, and then appends that new `current_chunk`
again before reassigning it once more. -/
def chunk_step (max_length : Nat) (acc : List PyStr × PyStr) (sentence : PyStr) :
    List PyStr × PyStr :=
  if (acc.2 ++ sentence ++ dotSpace).length ≤ max_length then
    (acc.1, acc.2 ++ sentence ++ dotSpace)
  else
    let chunks1 := if acc.2 = [] then acc.1 else acc.1 ++ [pyStrip acc.2]
    let current1 := sentence ++ dotSpace
    let chunks2 := if current1 = [] then chunks1 else chunks1 ++ [pyStrip current1]
    (chunks2, sentence ++ dotSpace)

/-- Embedding of `TranslationServices._chunk_text`
(src/translation_services.py lines 316-349): return `[text]` when the text
already fits, otherwise split on the sentence separator, greedily accumulate
sentences, and finally hard-split any chunk still over the limit. -/
def chunk_text (text : PyStr) (max_length : Nat) : List PyStr :=
  if text.length ≤ max_length then [text]
  else
    let acc := (pySplit dotSpace text).foldl (chunk_step max_length) ([], [])
    let chunks := if acc.2 = [] then acc.1 else acc.1 ++ [pyStrip acc.2]
    chunks.flatMap fun chunk =>
      if chunk.length ≤ max_length then [chunk] else hardSplit chunk max_length

-- sanity: a short text is returned unchanged
example : chunk_text "hi there".toList 450 = ["hi there".toList] := by decide

/-- Every piece produced by the fuel-driven hard split fits in `m` characters,
provided the fuel covers the length of the input and `m` is positive. -/
theorem hardSplitFuel_length_le (m : Nat) (hm : 0 < m) :
    ∀ fuel l, l.length ≤ fuel → ∀ p ∈ hardSplitFuel m fuel l, p.length ≤ m := by
  intro fuel
  induction fuel with
  | zero =>
    intro l hl p hp
    have hnil : l = [] := List.length_eq_zero.mp (Nat.le_zero.mp hl)
    subst hnil
    simp [hardSplitFuel] at hp
  | succ n ih =>
    intro l hl p hp
    cases l with
    | nil => simp [hardSplitFuel] at hp
    | cons c cs =>
      simp only [hardSplitFuel, List.mem_cons] at hp
      rcases hp with h | h
      · subst h
        simp [List.length_take]
      · refine ih _ ?_ p h
        simp only [List.length_drop, List.length_cons] at *
        omega

/-- Every piece of `hardSplit` fits in `m` characters when `0 < m`. -/
theorem hardSplit_length_le (l : PyStr) (m : Nat) (hm : 0 < m) :
    ∀ p ∈ hardSplit l m, p.length ≤ m :=
  hardSplitFuel_length_le m hm l.length l le_rfl

/-- C9: for every text and every maxLength > 0, every fragment returned by
`_chunk_text(text, maxLength)` has length at most maxLength; an indivisible
unit longer than maxLength is hard-split by character count, so no returned
fragment exceeds the limit. -/
theorem chunk_text_fragments_le (text : PyStr) (max_length : Nat)
    (hm : 0 < max_length) :
    ∀ chunk ∈ chunk_text text max_length, chunk.length ≤ max_length := by
  intro c hc
  unfold chunk_text at hc
  split at hc
  · next h =>
    simp only [List.mem_singleton] at hc
    subst hc
    exact h
  · next h =>
    simp only [List.mem_flatMap] at hc
    obtain ⟨chunk, _, hmem⟩ := hc
    split at hmem
    · next hle =>
      simp only [List.mem_singleton] at hmem
      subst hmem
      exact hle
    · exact hardSplit_length_le chunk max_length hm c hmem

/-- Witness for C9 at a concrete input. -/
theorem chunk_text_fragments_le_witness :
    0 < 6 ∧ ∀ chunk ∈ chunk_text "aaa. bbb".toList 6, chunk.length ≤ 6 :=
  ⟨by decide, chunk_text_fragments_le "aaa. bbb".toList 6 (by decide)⟩

/-- C4 (refuted): `_chunk_text` does not reconstruct the input; whenever the
greedy accumulation overflows, the overflowing sentence is appended to the
chunk list immediately and is also kept as the running chunk, so it is
emitted twice. On the input consisting of the two sentences `aaa` and `bbb`
with limit 6, the second sentence appears in two distinct fragments. -/
theorem chunk_text_duplicates_sentence :
    chunk_text "aaa. bbb".toList 6 =
      ["aaa.".toList, "bbb.".toList, "bbb.".toList] ∧
    (chunk_text "aaa. bbb".toList 6).count "bbb.".toList = 2 := by
  constructor <;> decide


/-! ## The provider chain (src/translation_services.py) -/

/-- Shape of the dict returned by each translation provider method
(`translate_with_mymemory`, `translate_with_libretranslate`,
`translate_with_mock`). Each such dict in the source is built with exactly
these six keys and in particular never carries an `error` or `cache_level`
key. Confidence is a Python int. -/
structure ProviderResult where
  translated_text : PyStr
  source_language : PyStr
  target_language : PyStr
  service : PyStr
  confidence : Int
  original_text : PyStr
deriving DecidableEq, Repr

/-- Shape of the dict returned by `TranslationServices.translate` and stored
in the caches: a provider result plus the optional `error` key (set only on
the all-providers-failed path) and the optional `cache_level` key (set by the
cache layer and by the HTTP layer). -/
structure TranslationResult where
  translated_text : PyStr
  source_language : PyStr
  target_language : PyStr
  service : PyStr
  confidence : Int
  original_text : PyStr
  error : Option PyStr := none
  cache_level : Option PyStr := none
deriving DecidableEq, Repr

/-- View a provider dict as a chain result: the dict has no `error` and no
`cache_level` key, so both read back as absent. -/
def ProviderResult.toTranslationResult (r : ProviderResult) : TranslationResult :=
  { translated_text := r.translated_text
    source_language := r.source_language
    target_language := r.target_language
    service := r.service
    confidence := r.confidence
    original_text := r.original_text
    error := none
    cache_level := none }

/-- Configuration read from the environment in `TranslationServices.__init__`;
only the flag the pure logic depends on is needed here. -/
structure Config where
  enable_mock_fallback : Bool
deriving DecidableEq, Repr

/-- Embedding of `TranslationServices._normalize_language_code`
(src/translation_services.py lines 307-313). The source delegates to the
external `langcodes` library, which maps a code already in ISO 639-1 form to
itself lower-cased; every language code appearing in this development is of
that form, and the except branch of the source also lower-cases. -/
def normalize_language_code (lang_code : PyStr) : PyStr := pyLower lang_code

/-- Embedding of the static fallback dictionary `self.mock_translations`
(src/translation_services.py lines 19-305), phrase by phrase. -/
def mock_translations : List (PyStr × List (PyStr × PyStr)) := [
  ("hello".toList, [
    ("hi".toList, "नमस्ते".toList),
    ("ta".toList, "வணக்கம்".toList),
    ("te".toList, "హలో".toList),
    ("kn".toList, "ಹಲೋ".toList),
    ("ml".toList, "ഹലോ".toList),
    ("bn".toList, "হ্যালো".toList),
    ("gu".toList, "હેલો".toList),
    ("mr".toList, "नमस्कार".toList),
    ("pa".toList, "ਸਤ ਸ੍ਰੀ ਅਕਾਲ".toList),
    ("or".toList, "ନମସ୍କାର".toList),
    ("as".toList, "নমস্কাৰ".toList)
  ]),
  ("good morning".toList, [
    ("hi".toList, "सुप्रभात".toList),
    ("ta".toList, "காலை வணக்கம்".toList),
    ("te".toList, "శుభోదయం".toList),
    ("kn".toList, "ಶುಭೋದಯ".toList),
    ("ml".toList, "സുപ്രഭാതം".toList),
    ("bn".toList, "সুপ্রভাত".toList),
    ("gu".toList, "શુભ સવાર".toList),
    ("mr".toList, "शुभ प्रभात".toList),
    ("pa".toList, "ਸ਼ੁਭ ਸਵੇਰ".toList),
    ("or".toList, "ଶୁଭ ପ୍ରଭାତ".toList),
    ("as".toList, "শুভ প্ৰভাত".toList)
  ]),
  ("good evening".toList, [
    ("hi".toList, "शुभ संध्या".toList),
    ("ta".toList, "மாலை வணக்கம்".toList),
    ("te".toList, "శుభ సాయంత్రం".toList),
    ("kn".toList, "ಶುಭ ಸಾಯಂಕಾಲ".toList),
    ("ml".toList, "സന്ധ്യാശുഭാശയങ്ങൾ".toList),
    ("bn".toList, "শুভ সন্ধ্যা".toList),
    ("gu".toList, "શુભ સાંજ".toList),
    ("mr".toList, "शुभ संध्या".toList),
    ("pa".toList, "ਸ਼ੁਭ ਸ਼ਾਮ".toList),
    ("or".toList, "ଶୁଭ ସନ୍ଧ୍ୟା".toList),
    ("as".toList, "শুভ সন্ধিয়া".toList)
  ]),
  ("good night".toList, [
    ("hi".toList, "शुभ रात्रि".toList),
    ("ta".toList, "இனிய இரவு".toList),
    ("te".toList, "శుభ రాత్రి".toList),
    ("kn".toList, "ಶುಭ ರಾತ್ರಿ".toList),
    ("ml".toList, "ശുഭ രാത്രി".toList),
    ("bn".toList, "শুভ রাত্রি".toList),
    ("gu".toList, "શુભ રાત્રી".toList),
    ("mr".toList, "शुभ रात्री".toList),
    ("pa".toList, "ਸ਼ੁਭ ਰਾਤ".toList),
    ("or".toList, "ଶୁଭ ରାତ୍ରି".toList),
    ("as".toList, "শুভ ৰাতি".toList)
  ]),
  ("thank you".toList, [
    ("hi".toList, "धन्यवाद".toList),
    ("ta".toList, "நன்றி".toList),
    ("te".toList, "ధన్యవాదాలు".toList),
    ("kn".toList, "ಧನ್ಯವಾದಗಳು".toList),
    ("ml".toList, "നന്ദി".toList),
    ("bn".toList, "ধন্যবাদ".toList),
    ("gu".toList, "આભાર".toList),
    ("mr".toList, "धन्यवाद".toList),
    ("pa".toList, "ਧੰਨਵਾਦ".toList),
    ("or".toList, "ଧନ୍ୟବାଦ".toList),
    ("as".toList, "ধন্যবাদ".toList)
  ]),
  ("goodbye".toList, [
    ("hi".toList, "अलविदा".toList),
    ("ta".toList, "விடை".toList),
    ("te".toList, "వీడ్కోలు".toList),
    ("kn".toList, "ವಿದಾಯ".toList),
    ("ml".toList, "വിട".toList),
    ("bn".toList, "বিদায়".toList),
    ("gu".toList, "આવજો".toList),
    ("mr".toList, "निरोप".toList),
    ("pa".toList, "ਅਲਵਿਦਾ".toList),
    ("or".toList, "ବିଦାୟ".toList),
    ("as".toList, "বিদায়".toList)
  ]),
  ("please".toList, [
    ("hi".toList, "कृपया".toList),
    ("ta".toList, "தயவுசெய்து".toList),
    ("te".toList, "దయచేసి".toList),
    ("kn".toList, "ದಯವಿಟ್ಟು".toList),
    ("ml".toList, "ദയവായി".toList),
    ("bn".toList, "দয়া করে".toList),
    ("gu".toList, "કૃપા કરીને".toList),
    ("mr".toList, "कृपया".toList),
    ("pa".toList, "ਕਿਰਪਾ ਕਰਕੇ".toList),
    ("or".toList, "ଦୟାକରି".toList),
    ("as".toList, "অনুগ্ৰহ কৰি".toList)
  ]),
  ("yes".toList, [
    ("hi".toList, "हाँ".toList),
    ("ta".toList, "ஆம்".toList),
    ("te".toList, "అవును".toList),
    ("kn".toList, "ಹೌದು".toList),
    ("ml".toList, "അതെ".toList),
    ("bn".toList, "হ্যাঁ".toList),
    ("gu".toList, "હા".toList),
    ("mr".toList, "होय".toList),
    ("pa".toList, "ਹਾਂ".toList),
    ("or".toList, "ହଁ".toList),
    ("as".toList, "হয়".toList)
  ]),
  ("no".toList, [
    ("hi".toList, "नहीं".toList),
    ("ta".toList, "இல்லை".toList),
    ("te".toList, "లేదు".toList),
    ("kn".toList, "ಇಲ್ಲ".toList),
    ("ml".toList, "ഇല്ല".toList),
    ("bn".toList, "না".toList),
    ("gu".toList, "ના".toList),
    ("mr".toList, "नाही".toList),
    ("pa".toList, "ਨਹੀਂ".toList),
    ("or".toList, "ନାହିଁ".toList),
    ("as".toList, "নাই".toList)
  ]),
  ("welcome".toList, [
    ("hi".toList, "स्वागत है".toList),
    ("ta".toList, "வரவேற்கிறோம்".toList),
    ("te".toList, "స్వాగతం".toList),
    ("kn".toList, "ಸ್ವಾಗತ".toList),
    ("ml".toList, "സ്വാഗതം".toList),
    ("bn".toList, "স্বাগতম".toList),
    ("gu".toList, "સ્વાગત છે".toList),
    ("mr".toList, "स्वागत आहे".toList),
    ("pa".toList, "ਜੀ ਆਇਆਂ ਨੂੰ".toList),
    ("or".toList, "ସ୍ୱାଗତ".toList),
    ("as".toList, "স্বাগতম".toList)
  ]),
  ("one".toList, [
    ("hi".toList, "एक".toList),
    ("ta".toList, "ஒன்று".toList),
    ("te".toList, "ఒకటి".toList),
    ("kn".toList, "ಒಂದು".toList),
    ("ml".toList, "ഒന്ന്".toList),
    ("bn".toList, "এক".toList),
    ("gu".toList, "એક".toList),
    ("mr".toList, "एक".toList),
    ("pa".toList, "ਇੱਕ".toList),
    ("or".toList, "ଏକ".toList),
    ("as".toList, "এক".toList)
  ]),
  ("two".toList, [
    ("hi".toList, "दो".toList),
    ("ta".toList, "இரண்டு".toList),
    ("te".toList, "రెండు".toList),
    ("kn".toList, "ಎರಡು".toList),
    ("ml".toList, "രണ്ട്".toList),
    ("bn".toList, "দুই".toList),
    ("gu".toList, "બે".toList),
    ("mr".toList, "दोन".toList),
    ("pa".toList, "ਦੋ".toList),
    ("or".toList, "ଦୁଇ".toList),
    ("as".toList, "দুই".toList)
  ]),
  ("three".toList, [
    ("hi".toList, "तीन".toList),
    ("ta".toList, "மூன்று".toList),
    ("te".toList, "మూడు".toList),
    ("kn".toList, "ಮೂರು".toList),
    ("ml".toList, "മൂന്ന്".toList),
    ("bn".toList, "তিন".toList),
    ("gu".toList, "ત્રણ".toList),
    ("mr".toList, "तीन".toList),
    ("pa".toList, "ਤਿੰਨ".toList),
    ("or".toList, "ତିନି".toList),
    ("as".toList, "তিনি".toList)
  ]),
  ("four".toList, [
    ("hi".toList, "चार".toList),
    ("ta".toList, "நான்கு".toList),
    ("te".toList, "నాలుగు".toList),
    ("kn".toList, "ನಾಲ್ಕು".toList),
    ("ml".toList, "നാല്".toList),
    ("bn".toList, "চার".toList),
    ("gu".toList, "ચાર".toList),
    ("mr".toList, "चार".toList),
    ("pa".toList, "ਚਾਰ".toList),
    ("or".toList, "ଚାରି".toList),
    ("as".toList, "চাৰি".toList)
  ]),
  ("five".toList, [
    ("hi".toList, "पांच".toList),
    ("ta".toList, "ஐந்து".toList),
    ("te".toList, "ఐదు".toList),
    ("kn".toList, "ಐದು".toList),
    ("ml".toList, "അഞ്ച്".toList),
    ("bn".toList, "পাঁচ".toList),
    ("gu".toList, "પાંચ".toList),
    ("mr".toList, "पाच".toList),
    ("pa".toList, "ਪੰਜ".toList),
    ("or".toList, "ପାଞ୍ଚ".toList),
    ("as".toList, "পাঁচ".toList)
  ]),
  ("mother".toList, [
    ("hi".toList, "मां".toList),
    ("ta".toList, "அம்மா".toList),
    ("te".toList, "అమ్మ".toList),
    ("kn".toList, "ಅಮ್ಮ".toList),
    ("ml".toList, "അമ്മ".toList),
    ("bn".toList, "মা".toList),
    ("gu".toList, "મા".toList),
    ("mr".toList, "आई".toList),
    ("pa".toList, "ਮਾਂ".toList),
    ("or".toList, "ମା".toList),
    ("as".toList, "মা".toList)
  ]),
  ("father".toList, [
    ("hi".toList, "पिता".toList),
    ("ta".toList, "அப்பா".toList),
    ("te".toList, "నాన్న".toList),
    ("kn".toList, "ಅಪ್ಪ".toList),
    ("ml".toList, "അച്ഛൻ".toList),
    ("bn".toList, "বাবা".toList),
    ("gu".toList, "પપ્પા".toList),
    ("mr".toList, "बाबा".toList),
    ("pa".toList, "ਪਿਤਾ".toList),
    ("or".toList, "ବାପା".toList),
    ("as".toList, "দেউতা".toList)
  ]),
  ("brother".toList, [
    ("hi".toList, "भाई".toList),
    ("ta".toList, "அண்ணா".toList),
    ("te".toList, "అన్న".toList),
    ("kn".toList, "ಅಣ್ಣ".toList),
    ("ml".toList, "ചേട്ടൻ".toList),
    ("bn".toList, "ভাই".toList),
    ("gu".toList, "ભાઈ".toList),
    ("mr".toList, "भाऊ".toList),
    ("pa".toList, "ਭਰਾ".toList),
    ("or".toList, "ଭାଇ".toList),
    ("as".toList, "ভাই".toList)
  ]),
  ("sister".toList, [
    ("hi".toList, "बहन".toList),
    ("ta".toList, "அக்கா".toList),
    ("te".toList, "అక్క".toList),
    ("kn".toList, "ಅಕ್ಕ".toList),
    ("ml".toList, "ചേച്ചി".toList),
    ("bn".toList, "বোন".toList),
    ("gu".toList, "બહેન".toList),
    ("mr".toList, "बहीण".toList),
    ("pa".toList, "ਭੈਣ".toList),
    ("or".toList, "ଭଉଣୀ".toList),
    ("as".toList, "ভনী".toList)
  ]),
  ("water".toList, [
    ("hi".toList, "पानी".toList),
    ("ta".toList, "தண்ணீர்".toList),
    ("te".toList, "నీళ్లు".toList),
    ("kn".toList, "ನೀರು".toList),
    ("ml".toList, "വെള്ളം".toList),
    ("bn".toList, "পানি".toList),
    ("gu".toList, "પાણી".toList),
    ("mr".toList, "पाणी".toList),
    ("pa".toList, "ਪਾਣੀ".toList),
    ("or".toList, "ପାଣି".toList),
    ("as".toList, "পানী".toList)
  ]),
  ("food".toList, [
    ("hi".toList, "खाना".toList),
    ("ta".toList, "உணவு".toList),
    ("te".toList, "ఆహారం".toList),
    ("kn".toList, "ಆಹಾರ".toList),
    ("ml".toList, "ഭക്ഷണം".toList),
    ("bn".toList, "খাবার".toList),
    ("gu".toList, "ખાણું".toList),
    ("mr".toList, "अन्न".toList),
    ("pa".toList, "ਖਾਣਾ".toList),
    ("or".toList, "ଖାଦ୍ୟ".toList),
    ("as".toList, "খাদ্য".toList)
  ]),
  ("house".toList, [
    ("hi".toList, "घर".toList),
    ("ta".toList, "வீடு".toList),
    ("te".toList, "ఇల్లు".toList),
    ("kn".toList, "ಮನೆ".toList),
    ("ml".toList, "വീട്".toList),
    ("bn".toList, "ঘর".toList),
    ("gu".toList, "ઘર".toList),
    ("mr".toList, "घर".toList),
    ("pa".toList, "ਘਰ".toList),
    ("or".toList, "ଘର".toList),
    ("as".toList, "ঘৰ".toList)
  ]),
  ("school".toList, [
    ("hi".toList, "स्कूल".toList),
    ("ta".toList, "பள்ளி".toList),
    ("te".toList, "పాఠశాల".toList),
    ("kn".toList, "ಶಾಲೆ".toList),
    ("ml".toList, "സ്കൂൾ".toList),
    ("bn".toList, "স্কুল".toList),
    ("gu".toList, "શાળા".toList),
    ("mr".toList, "शाळा".toList),
    ("pa".toList, "ਸਕੂਲ".toList),
    ("or".toList, "ସ୍କୁଲ".toList),
    ("as".toList, "বিদ্যালয়".toList)
  ]),
  ("hospital".toList, [
    ("hi".toList, "अस्पताल".toList),
    ("ta".toList, "மருத்துவமனை".toList),
    ("te".toList, "ఆసుపత్రి".toList),
    ("kn".toList, "ಆಸ್ಪತ್ರೆ".toList),
    ("ml".toList, "ആശുപത്രി".toList),
    ("bn".toList, "হাসপাতাল".toList),
    ("gu".toList, "હોસ્પિટલ".toList),
    ("mr".toList, "रुग्णालय".toList),
    ("pa".toList, "ਹਸਪਤਾਲ".toList),
    ("or".toList, "ହସ୍ପିତାଲ".toList),
    ("as".toList, "চিকিৎসালয়".toList)
  ]),
  ("money".toList, [
    ("hi".toList, "पैसा".toList),
    ("ta".toList, "பணம்".toList),
    ("te".toList, "డబ్బు".toList),
    ("kn".toList, "ಹಣ".toList),
    ("ml".toList, "പണം".toList),
    ("bn".toList, "টাকা".toList),
    ("gu".toList, "પૈસા".toList),
    ("mr".toList, "पैसा".toList),
    ("pa".toList, "ਪੈਸਾ".toList),
    ("or".toList, "ଟଙ୍କା".toList),
    ("as".toList, "টকা".toList)
  ]),
  ("work".toList, [
    ("hi".toList, "काम".toList),
    ("ta".toList, "வேலை".toList),
    ("te".toList, "పని".toList),
    ("kn".toList, "ಕೆಲಸ".toList),
    ("ml".toList, "ജോലി".toList),
    ("bn".toList, "কাজ".toList),
    ("gu".toList, "કામ".toList),
    ("mr".toList, "काम".toList),
    ("pa".toList, "ਕੰਮ".toList),
    ("or".toList, "କାମ".toList),
    ("as".toList, "কাম".toList)
  ]),
  ("office".toList, [
    ("hi".toList, "कार्यालय".toList),
    ("ta".toList, "அலுவலகம்".toList),
    ("te".toList, "కార్యాలయం".toList),
    ("kn".toList, "ಕಛೇರಿ".toList),
    ("ml".toList, "ഓഫീസ്".toList),
    ("bn".toList, "অফিস".toList),
    ("gu".toList, "ઑફિસ".toList),
    ("mr".toList, "कार्यालय".toList),
    ("pa".toList, "ਦਫ਼ਤਰ".toList),
    ("or".toList, "କାର୍ଯ୍ୟାଳୟ".toList),
    ("as".toList, "কাৰ্যালয়".toList)
  ]),
  ("meeting".toList, [
    ("hi".toList, "बैठक".toList),
    ("ta".toList, "கூட்டம்".toList),
    ("te".toList, "సభ".toList),
    ("kn".toList, "ಸಭೆ".toList),
    ("ml".toList, "യോഗം".toList),
    ("bn".toList, "বৈঠক".toList),
    ("gu".toList, "મીટિંગ".toList),
    ("mr".toList, "सभा".toList),
    ("pa".toList, "ਮੀਟਿੰਗ".toList),
    ("or".toList, "ସଭା".toList),
    ("as".toList, "সভা".toList)
  ]),
  ("help".toList, [
    ("hi".toList, "मदद".toList),
    ("ta".toList, "உதவி".toList),
    ("te".toList, "సహాయం".toList),
    ("kn".toList, "ಸಹಾಯ".toList),
    ("ml".toList, "സഹായം".toList),
    ("bn".toList, "সাহায্য".toList),
    ("gu".toList, "મદદ".toList),
    ("mr".toList, "मदत".toList),
    ("pa".toList, "ਮਦਦ".toList),
    ("or".toList, "ସାହାଯ୍ୟ".toList),
    ("as".toList, "সহায়".toList)
  ]),
  ("doctor".toList, [
    ("hi".toList, "डॉक्टर".toList),
    ("ta".toList, "டாக்டர்".toList),
    ("te".toList, "వైద్యుడు".toList),
    ("kn".toList, "ವೈದ್ය".toList),
    ("ml".toList, "ഡോക്ടർ".toList),
    ("bn".toList, "ডাক্তার".toList),
    ("gu".toList, "ડૉક્ટર".toList),
    ("mr".toList, "डॉक्टर".toList),
    ("pa".toList, "ਡਾਕਟਰ".toList),
    ("or".toList, "ଡାକ୍ତର".toList),
    ("as".toList, "চিকিৎসক".toList)
  ]),
  ("police".toList, [
    ("hi".toList, "पुलिस".toList),
    ("ta".toList, "போலீஸ்".toList),
    ("te".toList, "పోలీసు".toList),
    ("kn".toList, "ಪೊಲೀಸ್".toList),
    ("ml".toList, "പോലീസ്".toList),
    ("bn".toList, "পুলিশ".toList),
    ("gu".toList, "પોલીસ".toList),
    ("mr".toList, "पोलिस".toList),
    ("pa".toList, "ਪੁਲਿਸ".toList),
    ("or".toList, "ପୋଲିସ".toList),
    ("as".toList, "আৰক্ষী".toList)
  ]),
  ("emergency".toList, [
    ("hi".toList, "आपातकाल".toList),
    ("ta".toList, "அவசரம்".toList),
    ("te".toList, "అత్యవసరం".toList),
    ("kn".toList, "ತುರ್ತು".toList),
    ("ml".toList, "അത്യാവശ്യം".toList),
    ("bn".toList, "জরুরি".toList),
    ("gu".toList, "કટોકટી".toList),
    ("mr".toList, "आपत्कालीन".toList),
    ("pa".toList, "ਐਮਰਜੈਂਸੀ".toList),
    ("or".toList, "ଜରୁରୀକାଳୀନ".toList),
    ("as".toList, "জৰুৰীকালীন".toList)
  ]),
  ("bus".toList, [
    ("hi".toList, "बस".toList),
    ("ta".toList, "பேருந்து".toList),
    ("te".toList, "బస్సు".toList),
    ("kn".toList, "ಬಸ್".toList),
    ("ml".toList, "ബസ്".toList),
    ("bn".toList, "বাস".toList),
    ("gu".toList, "બસ".toList),
    ("mr".toList, "बस".toList),
    ("pa".toList, "ਬੱਸ".toList),
    ("or".toList, "ବସ୍".toList),
    ("as".toList, "বাছ".toList)
  ]),
  ("train".toList, [
    ("hi".toList, "ट्रेन".toList),
    ("ta".toList, "ரயில்".toList),
    ("te".toList, "రైలు".toList),
    ("kn".toList, "ರೈಲು".toList),
    ("ml".toList, "ട്രെയിൻ".toList),
    ("bn".toList, "ট্রেন".toList),
    ("gu".toList, "ટ્રેન".toList),
    ("mr".toList, "ट्रेन".toList),
    ("pa".toList, "ਰੇਲ".toList),
    ("or".toList, "ଟ୍ରେନ୍".toList),
    ("as".toList, "ৰেল".toList)
  ]),
  ("station".toList, [
    ("hi".toList, "स्टेशन".toList),
    ("ta".toList, "நிலையம்".toList),
    ("te".toList, "స్టేషన్".toList),
    ("kn".toList, "ನಿಲ್ದಾಣ".toList),
    ("ml".toList, "സ്റ്റേഷൻ".toList),
    ("bn".toList, "স্টেশন".toList),
    ("gu".toList, "સ્ટેશન".toList),
    ("mr".toList, "स्थानक".toList),
    ("pa".toList, "ਸਟੇਸ਼ਨ".toList),
    ("or".toList, "ଷ୍ଟେସନ୍".toList),
    ("as".toList, "ষ্টেচন".toList)
  ]),
  ("today".toList, [
    ("hi".toList, "आज".toList),
    ("ta".toList, "இன்று".toList),
    ("te".toList, "ఈరోజు".toList),
    ("kn".toList, "ಇಂದು".toList),
    ("ml".toList, "ഇന്ന്".toList),
    ("bn".toList, "আজ".toList),
    ("gu".toList, "આજે".toList),
    ("mr".toList, "आज".toList),
    ("pa".toList, "ਅੱਜ".toList),
    ("or".toList, "ଆଜି".toList),
    ("as".toList, "আজি".toList)
  ]),
  ("tomorrow".toList, [
    ("hi".toList, "कल".toList),
    ("ta".toList, "நாளை".toList),
    ("te".toList, "రేపు".toList),
    ("kn".toList, "ನಾಳೆ".toList),
    ("ml".toList, "നാളെ".toList),
    ("bn".toList, "কাল".toList),
    ("gu".toList, "કાલે".toList),
    ("mr".toList, "उद्या".toList),
    ("pa".toList, "ਕੱਲ".toList),
    ("or".toList, "କାଲି".toList),
    ("as".toList, "কাইলৈ".toList)
  ]),
  ("yesterday".toList, [
    ("hi".toList, "कल".toList),
    ("ta".toList, "நேற்று".toList),
    ("te".toList, "నిన్న".toList),
    ("kn".toList, "ನಿನ್ನೆ".toList),
    ("ml".toList, "ഇന്നലെ".toList),
    ("bn".toList, "গতকাল".toList),
    ("gu".toList, "ગઈકાલે".toList),
    ("mr".toList, "काल".toList),
    ("pa".toList, "ਕੱਲ੍ਹ".toList),
    ("or".toList, "ଗତକାଲି".toList),
    ("as".toList, "কালি".toList)
  ]),
  ("how are you".toList, [
    ("hi".toList, "आप कैसे हैं".toList),
    ("ta".toList, "நீங்கள் எப்படி இருக்கிறீர்கள்".toList),
    ("te".toList, "మీరు ఎలా ఉన్నారు".toList),
    ("kn".toList, "ನೀವು ಹೇಗಿದ್ದೀರಿ".toList),
    ("ml".toList, "നിങ്ങൾ എങ്ങനെയുണ്ട്".toList),
    ("bn".toList, "আপনি কেমন আছেন".toList),
    ("gu".toList, "તમે કેમ છો".toList),
    ("mr".toList, "तुम्ही कसे आहात".toList),
    ("pa".toList, "ਤੁਸੀਂ ਕਿਵੇਂ ਹੋ".toList),
    ("or".toList, "ଆପଣ କେମିତି ଅଛନ୍ତି".toList),
    ("as".toList, "আপুনি কেনেকুৱা আছে".toList)
  ]),
  ("i am fine".toList, [
    ("hi".toList, "मैं ठीक हूं".toList),
    ("ta".toList, "நான் நலமாக இருக்கிறேன்".toList),
    ("te".toList, "నేను బాగున్నాను".toList),
    ("kn".toList, "ನಾನು ಚೆನ್ನಾಗಿದ್ದೇನೆ".toList),
    ("ml".toList, "ഞാൻ സുഖമായിരിക്കുന്നു".toList),
    ("bn".toList, "আমি ভালো আছি".toList),
    ("gu".toList, "હું સારો છું".toList),
    ("mr".toList, "मी बरा आहे".toList),
    ("pa".toList, "ਮੈਂ ਠੀਕ ਹਾਂ".toList),
    ("or".toList, "ମୁଁ ଭଲ ଅଛି".toList),
    ("as".toList, "মই ভাল আছোঁ".toList)
  ]),
  ("what is your name".toList, [
    ("hi".toList, "आपका नाम क्या है".toList),
    ("ta".toList, "உங்கள் பெயர் என்ன".toList),
    ("te".toList, "మీ పేరు ఏమిటి".toList),
    ("kn".toList, "ನಿಮ್ಮ ಹೆಸರು ಏನು".toList),
    ("ml".toList, "നിങ്ങളുടെ പേര് എന്താണ്".toList),
    ("bn".toList, "আপনার নাম কি".toList),
    ("gu".toList, "તમારું નામ શું છે".toList),
    ("mr".toList, "तुमचे नाव काय आहे".toList),
    ("pa".toList, "ਤੁਹਾਡਾ ਨਾਮ ਕੀ ਹੈ".toList),
    ("or".toList, "ଆପଣଙ୍କ ନାମ କଣ".toList),
    ("as".toList, "আপোনাৰ নাম কি".toList)
  ]),
  ("sorry".toList, [
    ("hi".toList, "माफ करना".toList),
    ("ta".toList, "மன்னிக்கவும்".toList),
    ("te".toList, "క్షమించండి".toList),
    ("kn".toList, "ಕ್ಷಮಿಸಿ".toList),
    ("ml".toList, "ക്ഷമിക്കണം".toList),
    ("bn".toList, "দুঃখিত".toList),
    ("gu".toList, "માફ કરશો".toList),
    ("mr".toList, "माफ करा".toList),
    ("pa".toList, "ਮਾਫ ਕਰਨਾ".toList),
    ("or".toList, "କ୍ଷମା କରନ୍ତୁ".toList),
    ("as".toList, "ক্ষমা কৰিব".toList)
  ]),
  ("excuse me".toList, [
    ("hi".toList, "माफ करिए".toList),
    ("ta".toList, "மன்னிக்கவும்".toList),
    ("te".toList, "క్షమించండి".toList),
    ("kn".toList, "ಕ್ಷಮಿಸಿ".toList),
    ("ml".toList, "ക്ഷമിക്കണം".toList),
    ("bn".toList, "মাফ করবেন".toList),
    ("gu".toList, "માફ કરશો".toList),
    ("mr".toList, "माफ करा".toList),
    ("pa".toList, "ਮਾਫ਼ ਕਰੋ".toList),
    ("or".toList, "କ୍ଷମା କରନ୍ତୁ".toList),
    ("as".toList, "ক্ষমা কৰিব".toList)
  ])
]

/-- Python dict lookup `d.get(k)` over the association-list model. -/
def dictLookup {α : Type} (d : List (PyStr × α)) (k : PyStr) : Option α :=
  (d.find? fun p => p.1 == k).map fun p => p.2

/-- Embedding of `TranslationServices.translate_with_mock`
(src/translation_services.py lines 527-551): when the mock fallback is
enabled, normalize the text (`text.lower().strip()`) and the target language,
and look the pair up in the static dictionary; absent entries mean failure
(`None`). -/
def translate_with_mock (cfg : Config) (text target_language : PyStr) :
    Option ProviderResult :=
  if ¬ cfg.enable_mock_fallback then none
  else
    let normalized_text := pyStrip (pyLower text)
    let target_lang := normalize_language_code target_language
    match dictLookup mock_translations normalized_text with
    | none => none
    | some entry =>
      match dictLookup entry target_lang with
      | none => none
      | some translated_text =>
        some { translated_text := translated_text
               source_language := "auto".toList
               target_language := target_lang
               service := "mock_indian".toList
               confidence := 60
               original_text := text }

/-- The two network-backed provider methods, abstracted at their method
boundary: `translate_with_mymemory` and `translate_with_libretranslate` wrap
remote HTTP calls, and from the point of view of `translate` each is a
function of (text, target_language, source_language) returning either a
provider dict or `None` (timeouts, HTTP errors, unsupported languages and
empty payloads are all caught inside the method and surface as `None`). -/
structure ProviderEnv where
  mymemory : PyStr → PyStr → PyStr → Option ProviderResult
  libretranslate : PyStr → PyStr → PyStr → Option ProviderResult

/-- Names of the members of the provider chain, in the fixed priority order
`translate` tries them. -/
inductive ProviderName
  | mymemory
  | libretranslate
  | mock_indian
deriving DecidableEq, Repr

/-- Embedding of `TranslationServices.translate`
(src/translation_services.py lines 594-628). Each provider call is wrapped in
try/except and its result tested for truthiness (a provider returns either a
non-empty dict or `None`), which the `Option` environment captures; on the
first truthy result the function returns immediately, and if all three fail
it returns the degraded dict of lines 620-628. The second component records,
in order, the providers actually invoked. -/
def translate (env : ProviderEnv) (cfg : Config)
    (text source_language target_language : PyStr) :
    TranslationResult × List ProviderName :=
  match env.mymemory text target_language source_language with
  | some result => (result.toTranslationResult, [ProviderName.mymemory])
  | none =>
    match env.libretranslate text target_language source_language with
    | some result =>
      (result.toTranslationResult,
       [ProviderName.mymemory, ProviderName.libretranslate])
    | none =>
      match translate_with_mock cfg text target_language with
      | some result =>
        (result.toTranslationResult,
         [ProviderName.mymemory, ProviderName.libretranslate,
          ProviderName.mock_indian])
      | none =>
        ({ translated_text := text
           source_language := source_language
           target_language := target_language
           service := "none".toList
           confidence := 0
           original_text := text
           error := some "All translation services failed".toList
           cache_level := none },
         [ProviderName.mymemory, ProviderName.libretranslate,
          ProviderName.mock_indian])

/-- Embedding of `TranslationServices.translate_batch`
(src/translation_services.py lines 577-592): one task per input text in input
order, executed under a semaphore and collected with `asyncio.gather`, whose
documented contract returns the task results in task-submission order; each
task resolves its text through `translate` with the same source and target.
The semaphore bounds how many tasks run at once but does not affect any
per-text result, so the batch is the order-preserving map of `translate`. -/
def translate_batch (env : ProviderEnv) (cfg : Config) (texts : List PyStr)
    (target_language source_language : PyStr) : List TranslationResult :=
  texts.map fun text => (translate env cfg text source_language target_language).1

/-! ## Claims about the provider chain -/

/-- C1: for every input (text, source language, target language),
`TranslationServices.translate` tries the providers in fixed priority order
(MyMemory, then LibreTranslate, then the mock dictionary) and returns the
first successful provider result immediately; once an earlier provider has
succeeded, no later provider in the chain is ever invoked. The invocation log
is always an initial segment of the fixed order, a MyMemory success makes the
log exactly `[mymemory]`, and a LibreTranslate success after a MyMemory
failure makes it exactly `[mymemory, libretranslate]`. -/
theorem translate_chain_priority (env : ProviderEnv) (cfg : Config)
    (text source_language target_language : PyStr) :
    (∃ k, (translate env cfg text source_language target_language).2 =
        [ProviderName.mymemory, ProviderName.libretranslate,
         ProviderName.mock_indian].take k) ∧
    (∀ r, env.mymemory text target_language source_language = some r →
        translate env cfg text source_language target_language =
          (r.toTranslationResult, [ProviderName.mymemory])) ∧
    (env.mymemory text target_language source_language = none →
      ∀ r, env.libretranslate text target_language source_language = some r →
        translate env cfg text source_language target_language =
          (r.toTranslationResult,
           [ProviderName.mymemory, ProviderName.libretranslate])) := by
  refine ⟨?_, ?_, ?_⟩
  · cases h1 : env.mymemory text target_language source_language with
    | some r => exact ⟨1, by simp [translate, h1]⟩
    | none =>
      cases h2 : env.libretranslate text target_language source_language with
      | some r => exact ⟨2, by simp [translate, h1, h2]⟩
      | none =>
        cases h3 : translate_with_mock cfg text target_language with
        | some r => exact ⟨3, by simp [translate, h1, h2, h3]⟩
        | none => exact ⟨3, by simp [translate, h1, h2, h3]⟩
  · intro r h1
    simp [translate, h1]
  · intro h1 r h2
    simp [translate, h1, h2]

/-- Provider environment whose primary (MyMemory) always succeeds and whose
secondary always fails; used to instantiate chain theorems. -/
def envPrimaryOk : ProviderEnv :=
  { mymemory := fun text _ _ =>
      some { translated_text := "வணக்கம்".toList
             source_language := "en".toList
             target_language := "ta".toList
             service := "mymemory".toList
             confidence := 85
             original_text := text }
    libretranslate := fun _ _ _ => none }

/-- Witness for C1: with a primary that succeeds, `translate` returns the
primary result and the log is exactly `[mymemory]`. -/
theorem translate_chain_priority_witness :
    translate envPrimaryOk ⟨true⟩ "hello".toList "auto".toList "ta".toList =
      (({ translated_text := "வணக்கம்".toList
          source_language := "en".toList
          target_language := "ta".toList
          service := "mymemory".toList
          confidence := 85
          original_text := "hello".toList : ProviderResult }).toTranslationResult,
       [ProviderName.mymemory]) :=
  (translate_chain_priority envPrimaryOk ⟨true⟩ "hello".toList "auto".toList
      "ta".toList).2.1 _ rfl

/-- C2: if every provider in the chain fails, `translate` returns normally
(it is a total function) with translated_text equal to the original input,
service `none`, confidence 0 and a non-empty human-readable error; and the
error field is set in exactly this circumstance, because every provider dict
is built without an error key. -/
theorem translate_all_fail_degraded (env : ProviderEnv) (cfg : Config)
    (text source_language target_language : PyStr) :
    (((translate env cfg text source_language target_language).1.error ≠ none) ↔
      (env.mymemory text target_language source_language = none ∧
       env.libretranslate text target_language source_language = none ∧
       translate_with_mock cfg text target_language = none)) ∧
    ((env.mymemory text target_language source_language = none ∧
      env.libretranslate text target_language source_language = none ∧
      translate_with_mock cfg text target_language = none) →
      (translate env cfg text source_language target_language).1 =
        { translated_text := text
          source_language := source_language
          target_language := target_language
          service := "none".toList
          confidence := 0
          original_text := text
          error := some "All translation services failed".toList
          cache_level := none }) ∧
    (∀ msg, (translate env cfg text source_language target_language).1.error =
        some msg → msg ≠ []) := by
  cases h1 : env.mymemory text target_language source_language with
  | some r =>
    refine ⟨?_, ?_, ?_⟩ <;>
      simp [translate, h1, ProviderResult.toTranslationResult]
  | none =>
    cases h2 : env.libretranslate text target_language source_language with
    | some r =>
      refine ⟨?_, ?_, ?_⟩ <;>
        simp [translate, h1, h2, ProviderResult.toTranslationResult]
    | none =>
      cases h3 : translate_with_mock cfg text target_language with
      | some r =>
        refine ⟨?_, ?_, ?_⟩ <;>
          simp [translate, h1, h2, h3, ProviderResult.toTranslationResult]
      | none =>
        refine ⟨?_, ?_, ?_⟩
        · simp [translate, h1, h2, h3]
        · intro _
          simp [translate, h1, h2, h3]
        · intro msg hmsg
          simp [translate, h1, h2, h3] at hmsg
          subst hmsg
          decide

/-- Provider environment in which both network providers fail on every
input. -/
def envAllFail : ProviderEnv :=
  { mymemory := fun _ _ _ => none
    libretranslate := fun _ _ _ => none }

/-- Witness for C2: with both network providers failing and the mock fallback
disabled, `translate` returns the degraded pass-through result. -/
theorem translate_all_fail_degraded_witness :
    (translate envAllFail ⟨false⟩ "xy".toList "auto".toList "fr".toList).1 =
      { translated_text := "xy".toList
        source_language := "auto".toList
        target_language := "fr".toList
        service := "none".toList
        confidence := 0
        original_text := "xy".toList
        error := some "All translation services failed".toList
        cache_level := none } :=
  (translate_all_fail_degraded envAllFail ⟨false⟩ "xy".toList "auto".toList
      "fr".toList).2.1 ⟨rfl, rfl, by decide⟩

/-- C7: when MyMemory and LibreTranslate both fail and the mock fallback is
enabled, resolving text `hello` with source `auto` and target `ta` returns
service `mock_indian`, confidence 60 and the Tamil dictionary entry for
`hello`. -/
theorem mock_fallback_hello_ta (env : ProviderEnv) (cfg : Config)
    (h1 : env.mymemory "hello".toList "ta".toList "auto".toList = none)
    (h2 : env.libretranslate "hello".toList "ta".toList "auto".toList = none)
    (h3 : cfg.enable_mock_fallback = true) :
    (translate env cfg "hello".toList "auto".toList "ta".toList).1 =
      { translated_text := "வணக்கம்".toList
        source_language := "auto".toList
        target_language := "ta".toList
        service := "mock_indian".toList
        confidence := 60
        original_text := "hello".toList
        error := none
        cache_level := none } := by
  cases cfg with
  | mk b =>
    simp only [Config.mk.injEq] at h3
    subst h3
    simp only [translate, h1, h2]
    decide

/-- Witness for C7 at the all-failing environment with the mock enabled. -/
theorem mock_fallback_hello_ta_witness :
    (translate envAllFail ⟨true⟩ "hello".toList "auto".toList "ta".toList).1 =
      { translated_text := "வணக்கம்".toList
        source_language := "auto".toList
        target_language := "ta".toList
        service := "mock_indian".toList
        confidence := 60
        original_text := "hello".toList
        error := none
        cache_level := none } :=
  mock_fallback_hello_ta envAllFail ⟨true⟩ rfl rfl rfl

/-- C8: `translate_batch` returns one result per input text, and the result
at every index is the resolution of the text at that index; the gather step
collects task results in task-submission order, so the output order matches
the input order independently of completion order. -/
theorem translate_batch_order (env : ProviderEnv) (cfg : Config)
    (texts : List PyStr) (target_language source_language : PyStr) :
    (translate_batch env cfg texts target_language source_language).length =
      texts.length ∧
    ∀ i : Nat,
      (translate_batch env cfg texts target_language source_language)[i]? =
        (texts[i]?).map
          (fun text => (translate env cfg text source_language target_language).1) := by
  constructor
  · simp [translate_batch]
  · intro i
    simp [translate_batch]

/-! ## The multi-level cache (src/cache_manager.py) -/

/-- Modelled from the spec: `_generate_cache_key` feeds the normalized text to
the CPython builtin `hash`, which lives in the interpreter and not under
src/, and which the spec describes as runtime-randomized (§9: a keying scheme
based on a runtime-randomized hash, under which each process computes
different keys for identical input). It is modelled as a digest parametrised
by the per-process hash seed (PYTHONHASHSEED): deterministic for a fixed seed
and string, seed-dependent across processes. -/
def pythonStringHash (seed : Nat) (s : PyStr) : Nat :=
  s.foldl (fun h c => (h * 1000003 + c.toNat) % 2 ^ 64) (seed % 2 ^ 64)

/-- Embedding of `MultiLevelCache._generate_cache_key`
(src/cache_manager.py lines 46-48): the f-string
`translation:{hash(text.lower().strip())}:{target_language.lower()}`,
parametrised by the per-process hash seed. -/
def generate_cache_key (seed : Nat) (text target_language : PyStr) : PyStr :=
  "translation:".toList ++
    (Nat.repr (pythonStringHash seed (pyStrip (pyLower text)))).toList ++
    ":".toList ++ pyLower target_language

/-- One stored cache row: key, value and absolute expiry time. For the L1
`TTLCache` rows are kept in insertion order; every row receives the same ttl,
so insertion order coincides with expiry order. -/
abbrev Store := List (PyStr × TranslationResult × Nat)

/-- Lookup that enforces the per-row expiry, as the `in` test and
`__getitem__` of `TTLCache` and the redis GET all do: a row is visible while
`now < expiry`. -/
def storeGet (now : Nat) (store : Store) (key : PyStr) :
    Option TranslationResult :=
  (store.find? fun e => e.1 == key && decide (now < e.2.2)).map fun e => e.2.1

/-- Value stored under a key, disregarding expiry; used to state
full-replacement properties. -/
def storeLookup (store : Store) (key : PyStr) : Option TranslationResult :=
  (store.find? fun e => e.1 == key).map fun e => e.2.1

/-- Replace the value stored under `key`, keeping its expiry: the in-place
dict mutation `result["cache_level"] = ...` performed by `get` acts on the
very object the cache holds. -/
def storeReplaceValue (store : Store) (key : PyStr) (val : TranslationResult) :
    Store :=
  store.map fun e => if e.1 == key then (e.1, val, e.2.2) else e

/-- Insertion into the L1 `TTLCache`: expired rows are dropped, an existing
row for the key is removed, the new row is appended with expiry `now + ttl`,
and rows closest to expiry (the front of the queue) are evicted while the
size bound is exceeded. -/
def ttlInsert (maxsize ttl now : Nat) (key : PyStr) (val : TranslationResult)
    (store : Store) : Store :=
  let store := store.filter fun e => decide (now < e.2.2)
  let store := store.filter fun e => e.1 != key
  let store := store ++ [(key, val, now + ttl)]
  store.drop (store.length - maxsize)

/-- Redis SETEX: replace the value under the key, with expiry `now + ttl`. -/
def redisSetex (ttl now : Nat) (key : PyStr) (val : TranslationResult)
    (store : Store) : Store :=
  (store.filter fun e => e.1 != key) ++ [(key, val, now + ttl)]

/-- State of a `MultiLevelCache` instance together with its redis backend.
`l1_cache = []` covers both the disabled case (`None` in the source) and an
enabled but empty `TTLCache`; `redis_client = false` means the redis client
is absent or unreachable (reads then fall through, writes are dropped, as the
try/except blocks of the source arrange). The JSON round trip through redis
is the identity on these dicts. -/
structure CacheState where
  enable_l1 : Bool
  l1_cache : Store
  l1_cache_size : Nat
  l1_cache_ttl : Nat
  l2_cache_ttl : Nat
  redis_client : Bool
  redis_store : Store
deriving Repr

/-- Python truthiness of `self.l1_cache`: the guards in `get` and `set` are
written `if self.l1_cache ...`, not `if self.l1_cache is not None`. A
`TTLCache` defines `__len__`, so an enabled but EMPTY L1 cache is falsy and
every branch behind such a guard is skipped. -/
def l1Truthy (st : CacheState) : Bool :=
  st.enable_l1 && !st.l1_cache.isEmpty

/-- Embedding of `MultiLevelCache.get` (src/cache_manager.py lines 50-74),
returning the possibly mutated state together with the result. L1 branch
(`if self.l1_cache and cache_key in self.l1_cache`): on a hit the source
executes `result["cache_level"] = "L1"` on the dict object stored in the
cache, so the stored row is updated in place and the caller receives an alias
of it. L2 branch: on a redis hit the parsed dict is first stored into L1
(behind the same truthiness guard) and then mutated with
`result["cache_level"] = "L2"`, so the row just stored carries L2 as well. -/
def cache_get (seed now : Nat) (st : CacheState) (text target_language : PyStr) :
    CacheState × Option TranslationResult :=
  let cache_key := generate_cache_key seed text target_language
  if l1Truthy st && (storeGet now st.l1_cache cache_key).isSome then
    match storeGet now st.l1_cache cache_key with
    | some result0 =>
      let result := { result0 with cache_level := some "L1".toList }
      ({ st with l1_cache := storeReplaceValue st.l1_cache cache_key result },
       some result)
    | none => (st, none)
  else if st.redis_client then
    match storeGet now st.redis_store cache_key with
    | some result0 =>
      let result := { result0 with cache_level := some "L2".toList }
      let st' :=
        if l1Truthy st then
          { st with l1_cache := (ttlInsert st.l1_cache_size st.l1_cache_ttl
              now cache_key result st.l1_cache) }
        else st
      (st', some result)
    | none => (st, none)
  else (st, none)

/-- Embedding of `MultiLevelCache.set` (src/cache_manager.py lines 76-93):
store `translation_data.copy()` into L1 behind the truthiness guard
`if self.l1_cache:`, then SETEX the serialized dict into redis when the
client exists. -/
def cache_set (seed now : Nat) (st : CacheState) (text target_language : PyStr)
    (translation_data : TranslationResult) : CacheState :=
  let cache_key := generate_cache_key seed text target_language
  let st' :=
    if l1Truthy st then
      { st with l1_cache := (ttlInsert st.l1_cache_size st.l1_cache_ttl
          now cache_key translation_data st.l1_cache) }
    else st
  if st'.redis_client then
    { st' with redis_store := (redisSetex st'.l2_cache_ttl now cache_key
        translation_data st'.redis_store) }
  else st'

/-- One timestamped public cache operation. -/
inductive CacheOp
  | get (now : Nat) (text target_language : PyStr)
  | set (now : Nat) (text target_language : PyStr) (data : TranslationResult)

/-- Apply one public cache operation to the state. -/
def applyOp (seed : Nat) (st : CacheState) : CacheOp → CacheState
  | CacheOp.get now text target_language =>
    (cache_get seed now st text target_language).1
  | CacheOp.set now text target_language data =>
    cache_set seed now st text target_language data

/-- Run a sequence of public cache operations from a state. -/
def runOps (seed : Nat) (st : CacheState) (ops : List CacheOp) : CacheState :=
  ops.foldl (applyOp seed) st

/-- A `get` on a state with an empty L1 store leaves the L1 store empty: both
the L1 hit branch and the L1 population of the L2 branch sit behind the
truthiness guard. -/
theorem cache_get_l1_empty (seed now : Nat) (st : CacheState)
    (text target_language : PyStr) (h : st.l1_cache = []) :
    (cache_get seed now st text target_language).1.l1_cache = [] := by
  have hT : l1Truthy st = false := by simp [l1Truthy, h]
  unfold cache_get
  cases hR : st.redis_client with
  | false => simp [hT, hR, h]
  | true =>
    cases hG : storeGet now st.redis_store
        (generate_cache_key seed text target_language) with
    | none => simp [hT, hR, hG, h]
    | some r => simp [hT, hR, hG, h]

/-- A `set` on a state with an empty L1 store leaves the L1 store empty: the
very write that should populate L1 is skipped by the truthiness guard. -/
theorem cache_set_l1_empty (seed now : Nat) (st : CacheState)
    (text target_language : PyStr) (data : TranslationResult)
    (h : st.l1_cache = []) :
    (cache_set seed now st text target_language data).l1_cache = [] := by
  have hT : l1Truthy st = false := by simp [l1Truthy, h]
  unfold cache_set
  cases hR : st.redis_client with
  | false => simp [hT, hR, h]
  | true => simp [hT, hR, h]

/-- The L1 store of a fresh `MultiLevelCache` stays empty across every
sequence of public cache operations. -/
theorem runOps_l1_empty (seed : Nat) (ops : List CacheOp) :
    ∀ st : CacheState, st.l1_cache = [] →
      (runOps seed st ops).l1_cache = [] := by
  induction ops with
  | nil => intro st h; simpa [runOps] using h
  | cons op rest ih =>
    intro st h
    have hstep : (applyOp seed st op).l1_cache = [] := by
      cases op with
      | get now text target_language =>
        exact cache_get_l1_empty seed now st text target_language h
      | set now text target_language data =>
        exact cache_set_l1_empty seed now st text target_language data h
    simpa [runOps, List.foldl_cons] using ih (applyOp seed st op) hstep

/-- A `get` never writes to the redis store, on any state. -/
theorem cache_get_preserves_redis (seed now : Nat) (st : CacheState)
    (text target_language : PyStr) :
    (cache_get seed now st text target_language).1.redis_store =
      st.redis_store := by
  unfold cache_get
  cases h1 : (l1Truthy st &&
      (storeGet now st.l1_cache
        (generate_cache_key seed text target_language)).isSome) with
  | true =>
    cases hG : storeGet now st.l1_cache
        (generate_cache_key seed text target_language) with
    | some r =>
      have hT : l1Truthy st = true := by
        rw [hG] at h1
        simpa using h1
      simp [hG, hT]
    | none =>
      rw [hG] at h1
      simp at h1
  | false =>
    cases hR : st.redis_client with
    | false => simp [h1, hR]
    | true =>
      cases hG : storeGet now st.redis_store
          (generate_cache_key seed text target_language) with
      | none => simp [h1, hR, hG]
      | some r =>
        cases hT : l1Truthy st with
        | false => simp [h1, hR, hG, hT]
        | true =>
          rw [hT] at h1
          simp only [Bool.true_and] at h1
          simp [h1, hR, hG, hT]

/-- After SETEX, the value stored under the key is exactly the written
value. -/
theorem storeLookup_redisSetex (ttl now : Nat) (key : PyStr)
    (val : TranslationResult) (store : Store) :
    storeLookup (redisSetex ttl now key val store) key = some val := by
  unfold storeLookup redisSetex
  rw [List.find?_append]
  have hnone :
      (store.filter fun e => e.1 != key).find? (fun e => e.1 == key) = none := by
    rw [List.find?_eq_none]
    intro x hx
    have hmem := List.mem_filter.mp hx
    simpa using hmem.2
  rw [hnone]
  simp [List.find?]

/-! ## Claims about the cache -/

/-- C3 (refuted in its cross-process half): the cache key is built from the
runtime-randomized builtin hash, so two processes with different hash seeds
compute different keys for the same text and target language — §9 of the
spec records exactly this as a defect of the source. Within one process the
key does identify texts differing only by case and edge whitespace, since
the source hashes `text.lower().strip()` (second conjunct). -/
theorem cache_key_differs_across_processes :
    generate_cache_key 0 "hello".toList "ta".toList ≠
      generate_cache_key 1 "hello".toList "ta".toList ∧
    generate_cache_key 0 "  Hello ".toList "ta".toList =
      generate_cache_key 0 "hello".toList "ta".toList := by
  constructor
  · decide
  · decide

/-- Fresh cache state with a live redis backend, as built by
`MultiLevelCache.__init__` under the default configuration. -/
def initCache : CacheState :=
  { enable_l1 := true
    l1_cache := []
    l1_cache_size := 1000
    l1_cache_ttl := 300
    l2_cache_ttl := 3600
    redis_client := true
    redis_store := [] }

/-- A sample translation entry used in concrete cache scenarios. -/
def sampleEntry : TranslationResult :=
  { translated_text := "வணக்கம்".toList
    source_language := "en".toList
    target_language := "ta".toList
    service := "mymemory".toList
    confidence := 85
    original_text := "hello".toList }

/-- C5: a cache entry, once stored, is never partially mutated by any cache
operation. Over every state reachable from a fresh `MultiLevelCache` (whose
L1 `TTLCache` starts empty): `get` leaves both the L1 store and the redis
store untouched, so no stored entry is modified by a read — the in-place
`result["cache_level"]` assignments of the source sit behind the L1
truthiness guard, which no reachable state satisfies (see the C6 theorem);
`set` never touches L1 and installs its entry into redis wholesale: the value
subsequently stored under the key is exactly the written entry regardless of
what was stored before. -/
theorem cache_entries_never_partially_mutated (seed : Nat) (st0 : CacheState)
    (h0 : st0.l1_cache = []) (ops : List CacheOp) :
    (∀ now text target_language,
      (cache_get seed now (runOps seed st0 ops) text target_language).1.l1_cache =
          (runOps seed st0 ops).l1_cache ∧
      (cache_get seed now (runOps seed st0 ops) text target_language).1.redis_store =
          (runOps seed st0 ops).redis_store) ∧
    (∀ now text target_language data,
      (cache_set seed now (runOps seed st0 ops) text target_language data).l1_cache =
          (runOps seed st0 ops).l1_cache) ∧
    (∀ now text target_language data,
      (runOps seed st0 ops).redis_client = true →
      storeLookup
          (cache_set seed now (runOps seed st0 ops) text target_language
              data).redis_store
          (generate_cache_key seed text target_language) = some data) := by
  have hL1 : (runOps seed st0 ops).l1_cache = [] := runOps_l1_empty seed ops st0 h0
  have hT : l1Truthy (runOps seed st0 ops) = false := by simp [l1Truthy, hL1]
  refine ⟨?_, ?_, ?_⟩
  · intro now text target_language
    refine ⟨?_, cache_get_preserves_redis seed now _ text target_language⟩
    rw [cache_get_l1_empty seed now _ text target_language hL1, hL1]
  · intro now text target_language data
    rw [cache_set_l1_empty seed now _ text target_language data hL1, hL1]
  · intro now text target_language data hR
    unfold cache_set
    simp only [hT, if_false, Bool.false_eq_true, hR, if_true]
    exact storeLookup_redisSetex _ _ _ _ _

/-- Witness for C5: on the fresh cache, writing an entry stores exactly that
entry under its key in the redis store. -/
theorem cache_entries_never_partially_mutated_witness :
    storeLookup
        (cache_set 0 7 initCache "hello".toList "ta".toList
            sampleEntry).redis_store
        (generate_cache_key 0 "hello".toList "ta".toList) = some sampleEntry :=
  (cache_entries_never_partially_mutated 0 initCache rfl []).2.2 7 "hello".toList
    "ta".toList sampleEntry rfl

/-- C6 (refuted): `set` followed immediately by `get` does NOT return an L1
entry. The L1 write in `set` sits behind `if self.l1_cache:`, and an enabled
but empty `TTLCache` is falsy, so the write is skipped; the immediate `get`
then misses L1, falls through to redis and returns the entry tagged
`cache_level = "L2"` (and the L1 store can only ever be populated by these
guarded writes, so no reachable state produces an L1 hit). -/
theorem cache_set_get_roundtrip_not_l1 :
    (cache_get 0 0 (cache_set 0 0 initCache "hello".toList "ta".toList
          sampleEntry) "hello".toList "ta".toList).2 =
      some { sampleEntry with cache_level := some "L2".toList } ∧
    ({ sampleEntry with cache_level := some "L2".toList }).cache_level ≠
      some "L1".toList := by
  constructor
  · decide
  · decide

/-! ## The HTTP layer calls (src/main.py) -/

/-- Body of POST /translate (`TranslationRequest` in src/schemas.py);
`source_language` defaults to `auto` at the schema level. -/
structure TranslationRequest where
  text : PyStr
  target_language : PyStr
  source_language : PyStr
deriving Repr

/-- Body of POST /translate/batch (`BatchTranslationRequest` in
src/schemas.py). -/
structure BatchTranslationRequest where
  texts : List PyStr
  target_language : PyStr
  source_language : PyStr
deriving Repr

/-- Embedding of the `translate_text` endpoint (src/main.py lines 77-111),
omitting wall-clock bookkeeping (`processing_time_ms`) and the background
database task: check the cache; on a miss call
`translation_service.translate(request.text, request.target_language,
request.source_language)` — against the signature
`translate(self, text, source_language, target_language)` this positional
call binds the request target language to the source parameter and the
request source language to the target parameter — then write the result
through the cache and return it with `cache_level = None`. -/
def endpoint_translate_text (seed now : Nat) (env : ProviderEnv) (cfg : Config)
    (st : CacheState) (req : TranslationRequest) :
    TranslationResult × CacheState :=
  match cache_get seed now st req.text req.target_language with
  | (st1, some cached_result) => (cached_result, st1)
  | (st1, none) =>
    let translation_result :=
      (translate env cfg req.text req.target_language req.source_language).1
    let st2 := cache_set seed now st1 req.text req.target_language
      translation_result
    ({ translation_result with cache_level := none }, st2)

/-- Loop of the `translate_batch` endpoint (src/main.py lines 163-196): per
text, cache lookup first; on a miss translate with the same swapped
positional argument order as the single endpoint, tag the result
`cache_level = "fresh"` (the source assigns this before the cache write, so
the stored copy carries it too), write through the cache and append. -/
def endpoint_batch_loop (seed now : Nat) (env : ProviderEnv) (cfg : Config)
    (target_language source_language : PyStr) :
    CacheState → List PyStr → List TranslationResult × CacheState
  | st, [] => ([], st)
  | st, text :: rest =>
    match cache_get seed now st text target_language with
    | (st1, some cached_result) =>
      let step := endpoint_batch_loop seed now env cfg target_language
        source_language st1 rest
      (cached_result :: step.1, step.2)
    | (st1, none) =>
      let translation_result :=
        (translate env cfg text target_language source_language).1
      let translation_result :=
        { translation_result with cache_level := some "fresh".toList }
      let st2 := cache_set seed now st1 text target_language translation_result
      let step := endpoint_batch_loop seed now env cfg target_language
        source_language st2 rest
      (translation_result :: step.1, step.2)

/-- Embedding of the `translate_batch` endpoint (src/main.py lines 116-234),
restricted to the per-text results (counters and timing omitted). -/
def endpoint_translate_batch (seed now : Nat) (env : ProviderEnv) (cfg : Config)
    (st : CacheState) (req : BatchTranslationRequest) :
    List TranslationResult × CacheState :=
  endpoint_batch_loop seed now env cfg req.target_language req.source_language
    st req.texts

/-- On a state with an empty L1 store and no redis client, every cache read
misses and leaves the state unchanged. -/
theorem cache_get_miss_no_backend (seed now : Nat) (st : CacheState)
    (text target_language : PyStr) (h1 : st.l1_cache = [])
    (h2 : st.redis_client = false) :
    cache_get seed now st text target_language = (st, none) := by
  have hT : l1Truthy st = false := by simp [l1Truthy, h1]
  unfold cache_get
  simp [hT, h2]

/-- On a state with an empty L1 store and no redis client, a cache write is
dropped entirely. -/
theorem cache_set_no_backend (seed now : Nat) (st : CacheState)
    (text target_language : PyStr) (data : TranslationResult)
    (h1 : st.l1_cache = []) (h2 : st.redis_client = false) :
    cache_set seed now st text target_language data = st := by
  have hT : l1Truthy st = false := by simp [l1Truthy, h1]
  unfold cache_set
  simp [hT, h2]

/-- When both network providers fail on every input and the mock fallback is
disabled, `translate` returns the degraded pass-through result, whose
language fields echo its two language parameters. -/
theorem translate_univ_fail (env : ProviderEnv) (cfg : Config)
    (hm : ∀ a b c, env.mymemory a b c = none)
    (hl : ∀ a b c, env.libretranslate a b c = none)
    (hc : cfg.enable_mock_fallback = false)
    (text source_language target_language : PyStr) :
    (translate env cfg text source_language target_language).1 =
      { translated_text := text
        source_language := source_language
        target_language := target_language
        service := "none".toList
        confidence := 0
        original_text := text
        error := some "All translation services failed".toList
        cache_level := none } := by
  have h3 : translate_with_mock cfg text target_language = none := by
    simp [translate_with_mock, hc]
  simp [translate, hm text target_language source_language,
    hl text target_language source_language, h3]

/-- Every result emitted by the batch loop under a universally failing
provider chain and a dead cache backend carries the swapped language
fields. -/
theorem endpoint_batch_loop_swap (seed now : Nat) (env : ProviderEnv)
    (cfg : Config) (target_language source_language : PyStr)
    (hm : ∀ a b c, env.mymemory a b c = none)
    (hl : ∀ a b c, env.libretranslate a b c = none)
    (hc : cfg.enable_mock_fallback = false) :
    ∀ (texts : List PyStr) (st : CacheState), st.l1_cache = [] →
      st.redis_client = false →
      ∀ (i : Nat) (r : TranslationResult),
        (endpoint_batch_loop seed now env cfg target_language source_language
            st texts).1[i]? = some r →
        r.source_language = target_language ∧
        r.target_language = source_language := by
  intro texts
  induction texts with
  | nil =>
    intro st h1 h2 i r hr
    simp [endpoint_batch_loop] at hr
  | cons text rest ih =>
    intro st h1 h2 i r hr
    rw [show endpoint_batch_loop seed now env cfg target_language
          source_language st (text :: rest) =
        (let translation_result :=
            { (translate env cfg text target_language source_language).1 with
                cache_level := some "fresh".toList }
          let step := endpoint_batch_loop seed now env cfg target_language
            source_language st rest
          (translation_result :: step.1, step.2)) from by
      simp only [endpoint_batch_loop,
        cache_get_miss_no_backend seed now st text target_language h1 h2,
        cache_set_no_backend seed now st text target_language _ h1 h2]] at hr
    simp only [List.getElem?_cons] at hr
    split at hr
    · rename_i hi
      have hres := translate_univ_fail env cfg hm hl hc text target_language
        source_language
      rw [hres] at hr
      cases hr
      exact ⟨rfl, rfl⟩
    · exact ih st h1 h2 _ r hr

/-- C10: the inbound endpoints call `TranslationServices.translate` with the
request target language bound to the source parameter and the request source
language bound to the target parameter (the positional calls of src/main.py
lines 89-93 and 176-180, mirrored in the endpoint embeddings above);
consequently, when every provider fails, each degraded result handed back to
the caller has `target_language` equal to the request SOURCE language and
`source_language` equal to the request TARGET language. Stated over any
state with a dead cache backend, so every lookup misses. -/
theorem endpoints_swap_languages (seed now : Nat) (env : ProviderEnv)
    (cfg : Config) (st : CacheState) (req : TranslationRequest)
    (breq : BatchTranslationRequest)
    (hm : ∀ a b c, env.mymemory a b c = none)
    (hl : ∀ a b c, env.libretranslate a b c = none)
    (hc : cfg.enable_mock_fallback = false)
    (h1 : st.l1_cache = []) (h2 : st.redis_client = false) :
    ((endpoint_translate_text seed now env cfg st req).1.source_language =
        req.target_language ∧
     (endpoint_translate_text seed now env cfg st req).1.target_language =
        req.source_language ∧
     (endpoint_translate_text seed now env cfg st req).1.service =
        "none".toList) ∧
    (∀ (i : Nat) (r : TranslationResult),
      (endpoint_translate_batch seed now env cfg st breq).1[i]? = some r →
      r.source_language = breq.target_language ∧
      r.target_language = breq.source_language) := by
  constructor
  · have hres := translate_univ_fail env cfg hm hl hc req.text
      req.target_language req.source_language
    unfold endpoint_translate_text
    rw [cache_get_miss_no_backend seed now st req.text req.target_language h1 h2]
    simp [hres]
  · intro i r hr
    exact endpoint_batch_loop_swap seed now env cfg breq.target_language
      breq.source_language hm hl hc breq.texts st h1 h2 i r hr

/-- Fresh cache state whose redis connection failed, as
`MultiLevelCache._init_redis` leaves it when the backend is unreachable. -/
def noRedisCache : CacheState :=
  { enable_l1 := true
    l1_cache := []
    l1_cache_size := 1000
    l1_cache_ttl := 300
    l2_cache_ttl := 3600
    redis_client := false
    redis_store := [] }

/-- Witness for C10: a concrete request with source `en` and target `ta`,
every provider failing, comes back with `source_language = ta` and
`target_language = en`, and so does the first batch result. -/
theorem endpoints_swap_languages_witness :
    ((endpoint_translate_text 0 0 envAllFail ⟨false⟩ noRedisCache
        { text := "hello".toList, target_language := "ta".toList,
          source_language := "en".toList }).1.source_language = "ta".toList ∧
     (endpoint_translate_text 0 0 envAllFail ⟨false⟩ noRedisCache
        { text := "hello".toList, target_language := "ta".toList,
          source_language := "en".toList }).1.target_language = "en".toList) ∧
    ((endpoint_translate_batch 0 0 envAllFail ⟨false⟩ noRedisCache
        { texts := ["hello".toList], target_language := "ta".toList,
          source_language := "en".toList }).1[0]? =
        (endpoint_translate_batch 0 0 envAllFail ⟨false⟩ noRedisCache
          { texts := ["hello".toList], target_language := "ta".toList,
            source_language := "en".toList }).1[0]?) := by
  refine ⟨⟨?_, ?_⟩, rfl⟩
  · exact (endpoints_swap_languages 0 0 envAllFail ⟨false⟩ noRedisCache
      { text := "hello".toList, target_language := "ta".toList,
        source_language := "en".toList }
      { texts := ["hello".toList], target_language := "ta".toList,
        source_language := "en".toList }
      (fun _ _ _ => rfl) (fun _ _ _ => rfl) rfl rfl rfl).1.1
  · exact (endpoints_swap_languages 0 0 envAllFail ⟨false⟩ noRedisCache
      { text := "hello".toList, target_language := "ta".toList,
        source_language := "en".toList }
      { texts := ["hello".toList], target_language := "ta".toList,
        source_language := "en".toList }
      (fun _ _ _ => rfl) (fun _ _ _ => rfl) rfl rfl rfl).1.2.1

end Udaan
